import Mathlib

/-!
Shallow embedding of the ClipCraft_AI gateway (src/main.py): a FastAPI
service that forwards video-generation and status-lookup requests to the
HeyGen provider and tracks request state in an in-memory dict
(`video_requests_db`).

Modelling conventions:
* The in-memory dict is an insertion-ordered association list
  (Python 3.7+ dicts preserve insertion order); dict assignment
  `db[k] = v` replaces in place when the key exists, else appends.
* JSON access through Python's one-argument `dict.get` collapses an
  absent key and a key bound to JSON null to the same `None`;
  provider-body fields read that way are modelled as `Option` values
  where `none` means absent-or-null.  The `error` key is read with the
  two-argument `data.get("error", "Unknown error")`, which returns the
  default only for an absent key and the stored `None` for a
  present-but-null key; it is therefore modelled with presence and
  nullability distinguished (`Option (Option String)`).
* The provider's `duration` field is a JSON number that the code passes
  through without arithmetic; it is modelled by its literal token.
* Outbound HTTP calls are modelled by an oracle `ProviderResult` value
  supplied as an argument; each endpoint also returns the number of
  provider calls it made (0 or 1).
* Timestamps (`datetime.now().isoformat()`) are opaque strings supplied
  as arguments, and the freshly generated `uuid.uuid4()` request id is an
  argument as well.
-/

/-- Mirrors the `VideoGenerationRequest` pydantic model (src/main.py lines
23-32) after parsing: optional fields carry the declared defaults.  The
`min_length`/`max_length` constraint on `script_text` is modelled
separately by `validGenLen`. -/
structure VideoGenerationRequest where
  script_text : String
  template_id : Option String := none
  use_captions : Option Bool := some false
  avatar_id : Option String := some "283a8bced1f841c7a9292a9212019165"
  voice_id : Option String := some "fc3a1b6d218246d39ff5199ab147d6ee"
  background_url : Option String := some "https://static.heygen.ai/tmp_resource/7fba946a-b927-4bc9-b754-84e28c5546da"
  title : Option String := some "Render_API_Video"
  width : Option Int := some 1280
  height : Option Int := some 720
deriving DecidableEq

/-- Mirrors `VideoGenerationResponse` (src/main.py lines 34-39). -/
structure VideoGenerationResponse where
  success : Bool
  message : String
  request_id : String
  video_id : Option String := none
  estimated_time : Option String := none
deriving DecidableEq

/-- Mirrors `VideoRetrievalRequest` (src/main.py lines 41-43). -/
structure VideoRetrievalRequest where
  request_id : Option String := none
  video_id : Option String := none
deriving DecidableEq

/-- Mirrors `VideoRetrievalResponse` (src/main.py lines 45-55).  The
`duration` field is `Optional[float]` in the source; the code only passes
it through, so it is modelled by its JSON literal. -/
structure VideoRetrievalResponse where
  success : Bool
  message : String
  request_id : Option String := none
  video_id : Option String := none
  status : Option String := none
  video_url : Option String := none
  caption_url : Option String := none
  thumbnail_url : Option String := none
  duration : Option String := none
  created_at : Option String := none
deriving DecidableEq

/-- One value of `video_requests_db` (the dict literal at src/main.py
lines 253-264, plus the `last_checked` key written at line 329). -/
structure VideoRecord where
  video_id : String
  script_text : String
  template_id : String
  use_captions : Option Bool
  avatar_id : Option String
  voice_id : Option String
  title : Option String
  created_at : String
  status : String
  platform : String
  last_checked : Option String := none
deriving DecidableEq

/-- The in-memory registry `video_requests_db` (src/main.py line 20):
an insertion-ordered map from request id to record. -/
abbrev Registry := List (String × VideoRecord)

/-- Python `key in db` / `db[key]` on an insertion-ordered dict. -/
def dbLookup (db : Registry) (k : String) : Option VideoRecord :=
  match db with
  | [] => none
  | (a, r) :: t => if k = a then some r else dbLookup t k

/-- The key sequence of the dict, in insertion order. -/
def dbKeys (db : Registry) : List String :=
  db.map Prod.fst

/-- Python dict assignment `video_requests_db[request_id] = record`
(src/main.py line 253): replaces in place when the key is present,
appends otherwise. -/
def dbInsert (db : Registry) (k : String) (r : VideoRecord) : Registry :=
  match db with
  | [] => [(k, r)]
  | (a, r0) :: t => if k = a then (a, r) :: t else (a, r0) :: dbInsert t k r

/-- Record of the status write `db[rid]["status"] = st;
db[rid]["last_checked"] = now` (src/main.py lines 328-329). -/
def setStatus (r : VideoRecord) (st now : String) : VideoRecord :=
  { r with status := st, last_checked := some now }

/-- The status update applied to the dict entry for `k` (src/main.py
lines 327-329); a missing key leaves the dict unchanged (the code guards
the write with a membership test). -/
def dbUpdateStatus (db : Registry) (k st now : String) : Registry :=
  match db with
  | [] => []
  | (a, r) :: t =>
      if k = a then (a, setStatus r st now) :: t
      else (a, r) :: dbUpdateStatus t k st now

/-- The linear scan `for rid, data in video_requests_db.items(): if
data["video_id"] == video_id` (src/main.py lines 311-314): first key in
insertion order whose record carries the given video id. -/
def findByVideoId (db : Registry) (vid : String) : Option String :=
  match db with
  | [] => none
  | (a, r) :: t => if r.video_id = vid then some a else findByVideoId t vid

/-- An outbound provider call, as observed by the `try`/`except` block
around `requests.post`/`requests.get` (src/main.py lines 146-164 and
177-195): a non-200 HTTP response, a timeout, a connection error, some
other request error, or a parsed JSON body. -/
inductive ProviderResult (B : Type) where
  | httpError (status_code : Nat) (text : String)
  | timeout
  | connError
  | reqError (msg : String)
  | ok (body : B)
deriving DecidableEq

/-- A raised `fastapi.HTTPException` (status code and detail). -/
structure HTTPException where
  status_code : Nat
  detail : String
deriving DecidableEq

/-- Shared error translation of `HeyGenService.generate_video` and
`HeyGenService.get_video_status` (src/main.py lines 146-164, 177-195):
non-200 responses and transport failures are re-raised as
`HTTPException`; a 200 response yields the parsed body. -/
def translateProvider {B : Type} : ProviderResult B → Except HTTPException B
  | ProviderResult.httpError c t =>
      Except.error ⟨c, "HeyGen API error: " ++ t⟩
  | ProviderResult.timeout => Except.error ⟨408, "Request timeout"⟩
  | ProviderResult.connError => Except.error ⟨503, "Service unavailable"⟩
  | ProviderResult.reqError m => Except.error ⟨500, "Request failed: " ++ m⟩
  | ProviderResult.ok b => Except.ok b

/-- The `data` object of a successful generation body, as read by
`result["data"]["video_id"]` (src/main.py lines 249-250). -/
structure GenData where
  video_id : Option String := none
deriving DecidableEq

/-- A parsed generation-call body: `data` may be absent. -/
structure GenBody where
  data : Option GenData := none
deriving DecidableEq

/-- The `data` object of a status body, as read at src/main.py lines
322-349 (`status`, the completed-only fields, and `error`).  The
`error` field is read with the two-argument
`data.get("error", "Unknown error")` (line 349), which distinguishes an
absent key (outer `none`) from a key present with JSON null
(`some none`) and from a string detail (`some (some s)`). -/
structure StatusData where
  status : Option String := none
  video_url : Option String := none
  caption_url : Option String := none
  thumbnail_url : Option String := none
  duration : Option String := none
  created_at : Option String := none
  error : Option (Option String) := none
deriving DecidableEq

/-- A parsed status-call body: `data` may be absent. -/
structure StatusBody where
  data : Option StatusData := none
deriving DecidableEq

/-- The configured default template id `TEMPLATE_ID`
(src/main.py line 75, using its literal fallback). -/
def TEMPLATE_ID : String := "52df47c0bd8e435c9729121e036d2e7f"

/-- Python's truthy `or` on an optional string
(`request.template_id or TEMPLATE_ID`, src/main.py line 256):
`None` and the empty string both fall back to the default. -/
def pyOrStr (o : Option String) (d : String) : String :=
  match o with
  | some s => if s = "" then d else s
  | none => d

/-- The record stored by the generation path (src/main.py lines
253-264). -/
def genRecord (req : VideoGenerationRequest) (vid now : String) : VideoRecord :=
  { video_id := vid
    script_text := req.script_text
    template_id := pyOrStr req.template_id TEMPLATE_ID
    use_captions := req.use_captions
    avatar_id := req.avatar_id
    voice_id := req.voice_id
    title := req.title
    created_at := now
    status := "processing"
    platform := "render"
    last_checked := none }

/-- The `/generate` handler body after a service client exists
(src/main.py lines 245-286): call the provider, and when the body holds
`data.video_id`, store the record and answer success; otherwise re-raise
the translated error or a 500.  Returns the new registry, the number of
provider calls made, and the outcome. -/
def generate_video (db : Registry) (request_id : String)
    (req : VideoGenerationRequest) (pr : ProviderResult GenBody)
    (now : String) :
    Registry × Nat × Except HTTPException VideoGenerationResponse :=
  match translateProvider pr with
  | Except.error e => (db, 1, Except.error e)
  | Except.ok body =>
      match body.data with
      | none =>
          (db, 1, Except.error
            ⟨500, "Unexpected response from video generation service"⟩)
      | some d =>
          match d.video_id with
          | none =>
              (db, 1, Except.error
                ⟨500, "Unexpected response from video generation service"⟩)
          | some vid =>
              (dbInsert db request_id (genRecord req vid now), 1,
               Except.ok
                 { success := true
                   message := "Video generation initiated successfully"
                   request_id := request_id
                   video_id := some vid
                   estimated_time := some "2-5 minutes" })

/-- The pydantic length constraint on `script_text`
(`min_length=1, max_length=5000`, src/main.py line 24). -/
def validGenLen (s : String) : Bool :=
  1 ≤ s.length && s.length ≤ 5000

/-- An error surfaced by the application: either a raised
`HTTPException`, or a pydantic request-body validation failure
(`RequestValidationError`), which FastAPI handles before the route
handler runs. -/
inductive AppError where
  | http (e : HTTPException)
  | validation (detail : String)
deriving DecidableEq

/-- The detail text of the pydantic length-violation error (modelled as
one fixed descriptive string; the code never inspects it). -/
def validationDetail : String :=
  "String should have at least 1 character and at most 5000 characters"

/-- The `/generate` endpoint including the framework's request-body
validation: a `script_text` length violation is rejected by pydantic
before the handler runs, so no provider call is made. -/
def handleGenerate (db : Registry) (request_id : String)
    (req : VideoGenerationRequest) (pr : ProviderResult GenBody)
    (now : String) :
    Registry × Nat × Except AppError VideoGenerationResponse :=
  if validGenLen req.script_text then
    match generate_video db request_id req pr now with
    | (db1, n, Except.ok resp) => (db1, n, Except.ok resp)
    | (db1, n, Except.error e) => (db1, n, Except.error (AppError.http e))
  else
    (db, 0, Except.error (AppError.validation validationDetail))

/-- The string interpolated into the failed-status message at
src/main.py line 349: `data.get("error", "Unknown error")` rendered by
the f-string.  An absent `error` key yields the default string; a key
present with JSON null yields Python `None`, which the f-string renders
as the literal `None`; a string detail is rendered as itself. -/
def errorDetailText (o : Option (Option String)) : String :=
  match o with
  | none => "Unknown error"
  | some none => "None"
  | some (some s) => s

/-- The retrieval response dict (src/main.py lines 331-349): base fields
always present; the completed-only fields copied by `data.get` when
`status == "completed"`; the message replaced when
`status == "failed"`. -/
def buildRetResponse (ridOpt : Option String) (vid st : String)
    (d : StatusData) : VideoRetrievalResponse :=
  let base : VideoRetrievalResponse :=
    { success := true
      message := "Video status: " ++ st
      request_id := ridOpt
      video_id := some vid
      status := some st }
  if st = "completed" then
    { base with
        video_url := d.video_url
        caption_url := d.caption_url
        thumbnail_url := d.thumbnail_url
        duration := d.duration
        created_at := d.created_at }
  else if st = "failed" then
    { base with
        message := "Video generation failed: " ++ errorDetailText d.error }
  else base

/-- The tail of the `/retrieve` handler after the target `video_id` is
resolved (src/main.py lines 318-365): query the provider; when the body
holds `data.status`, update the registry entry for the resolved request
id (guarded by Python truthiness and membership, line 327) and build the
response; otherwise surface the translated error or a 500. -/
def afterResolve (db : Registry) (ridOpt : Option String) (vid : String)
    (pr : ProviderResult StatusBody) (now : String) :
    Registry × Nat × Except HTTPException VideoRetrievalResponse :=
  match translateProvider pr with
  | Except.error e => (db, 1, Except.error e)
  | Except.ok body =>
      match body.data with
      | none =>
          (db, 1, Except.error
            ⟨500, "Unexpected response from video status service"⟩)
      | some d =>
          match d.status with
          | none =>
              (db, 1, Except.error
                ⟨500, "Unexpected response from video status service"⟩)
          | some st =>
              let db1 :=
                match ridOpt with
                | some rid =>
                    if rid ≠ "" ∧ (dbLookup db rid).isSome then
                      dbUpdateStatus db rid st now
                    else db
                | none => db
              (db1, 1, Except.ok (buildRetResponse ridOpt vid st d))

/-- Recovery of a request id from a directly supplied video id
(src/main.py lines 310-314): the scan's first match overwrites the
initial `request_id = request.request_id`. -/
def resolveRidByVid (db : Registry) (vid : String)
    (rid0 : Option String) : Option String :=
  match findByVideoId db vid with
  | some rid => some rid
  | none => rid0

/-- The `elif request.video_id:` branch and the final `else`
(src/main.py lines 308-316): a truthy (non-empty) `video_id` is used
as-is; otherwise the request is rejected with a 400. -/
def retrieveFallback (db : Registry) (rq : VideoRetrievalRequest)
    (pr : ProviderResult StatusBody) (now : String) :
    Registry × Nat × Except HTTPException VideoRetrievalResponse :=
  match rq.video_id with
  | some vid =>
      if vid = "" then
        (db, 0, Except.error
          ⟨400, "Either request_id or video_id must be provided"⟩)
      else afterResolve db (resolveRidByVid db vid rq.request_id) vid pr now
  | none =>
      (db, 0, Except.error
        ⟨400, "Either request_id or video_id must be provided"⟩)

/-- The `/retrieve` handler (src/main.py lines 288-365).  Note the
truthiness test `if request.request_id:` (line 303): an empty-string
request id falls through to the video-id branch. -/
def retrieve_video (db : Registry) (rq : VideoRetrievalRequest)
    (pr : ProviderResult StatusBody) (now : String) :
    Registry × Nat × Except HTTPException VideoRetrievalResponse :=
  match rq.request_id with
  | some rid =>
      if rid = "" then retrieveFallback db rq pr now
      else
        match dbLookup db rid with
        | some record => afterResolve db (some rid) record.video_id pr now
        | none => (db, 0, Except.error ⟨404, "Request ID not found"⟩)
  | none => retrieveFallback db rq pr now

/-- A JSON scalar value, as far as the error bodies need. -/
inductive JVal where
  | jb (v : Bool)
  | js (v : String)
  | jn (v : Nat)
deriving DecidableEq

/-- The JSON error body (status code and field list) produced for an
`AppError`: raised `HTTPException`s go through `http_exception_handler`
(src/main.py lines 385-390); pydantic `RequestValidationError`s are
answered by FastAPI's built-in handler, which the application does not
override, with a 422 response whose body is a single `detail` field. -/
def errorResponseBody : AppError → Nat × List (String × JVal)
  | AppError.http e =>
      (e.status_code,
       [("success", JVal.jb false), ("message", JVal.js e.detail),
        ("status_code", JVal.jn e.status_code),
        ("platform", JVal.js "Render")])
  | AppError.validation d => (422, [("detail", JVal.js d)])

/-- Whether a generation provider result is the success shape the
handler requires (`"data" in result and "video_id" in result["data"]`,
src/main.py line 249). -/
def genSuccessShape : ProviderResult GenBody → Bool
  | ProviderResult.ok b =>
      match b.data with
      | some d => d.video_id.isSome
      | none => false
  | _ => false

/-- Whether a status provider result is the success shape the handler
requires (`"data" in result and "status" in result["data"]`,
src/main.py line 322). -/
def statusSuccessShape : ProviderResult StatusBody → Bool
  | ProviderResult.ok b =>
      match b.data with
      | some d => d.status.isSome
      | none => false
  | _ => false

/-- One inbound mutating call: a `/generate` call (with its fresh uuid,
parsed request, provider oracle and timestamp) or a `/retrieve` call. -/
inductive GatewayOp where
  | gen (request_id : String) (req : VideoGenerationRequest)
        (pr : ProviderResult GenBody) (now : String)
  | ret (rq : VideoRetrievalRequest) (pr : ProviderResult StatusBody)
        (now : String)

/-- The registry after one inbound call. -/
def applyOp (db : Registry) : GatewayOp → Registry
  | GatewayOp.gen rid req pr now => (handleGenerate db rid req pr now).1
  | GatewayOp.ret rq pr now => (retrieve_video db rq pr now).1

/-- The registry after a sequence of inbound calls. -/
def runOps (db : Registry) : List GatewayOp → Registry
  | [] => db
  | op :: ops => runOps (applyOp db op) ops

/-- A generation op's uuid is fresh for the given registry (uuid4
collisions are assumed not to occur); retrieval ops are unconstrained. -/
def freshGen (db : Registry) : GatewayOp → Bool
  | GatewayOp.gen rid _ _ _ => (dbLookup db rid).isNone
  | GatewayOp.ret _ _ _ => true

/-- Every generation op in the sequence uses an id fresh at the moment
it executes. -/
def freshRun (db : Registry) : List GatewayOp → Bool
  | [] => true
  | op :: ops => freshGen db op && freshRun (applyOp db op) ops

/-- The caller-supplied fields frozen at insertion time (everything but
`status` and `last_checked`). -/
def immutablePart (r : VideoRecord) :
    String × String × String × Option Bool × Option String ×
      Option String × Option String × String :=
  (r.video_id, r.script_text, r.template_id, r.use_captions,
   r.avatar_id, r.voice_id, r.title, r.created_at)

/-! ### Registry lemmas -/

theorem dbLookup_eq_none_iff (db : Registry) (k : String) :
    dbLookup db k = none ↔ k ∉ dbKeys db := by
  induction db with
  | nil => simp [dbLookup, dbKeys]
  | cons p t ih =>
      obtain ⟨a, r⟩ := p
      by_cases hk : k = a
      · subst hk; simp [dbLookup, dbKeys]
      · simp [dbLookup, dbKeys, hk, ih]

theorem dbInsert_of_fresh (db : Registry) (k : String) (r : VideoRecord)
    (h : dbLookup db k = none) : dbInsert db k r = db ++ [(k, r)] := by
  induction db with
  | nil => simp [dbInsert]
  | cons p t ih =>
      obtain ⟨a, r0⟩ := p
      by_cases hk : k = a
      · subst hk; simp [dbLookup] at h
      · simp [dbLookup, hk] at h
        simp [dbInsert, hk, ih h]

theorem dbLookup_append_some (db l : Registry) (k : String) (r : VideoRecord)
    (h : dbLookup db k = some r) : dbLookup (db ++ l) k = some r := by
  induction db with
  | nil => simp [dbLookup] at h
  | cons p t ih =>
      obtain ⟨a, r0⟩ := p
      by_cases hk : k = a
      · subst hk; simp [dbLookup] at h ⊢; exact h
      · simp [dbLookup, hk] at h ⊢; exact ih h

theorem dbLookup_append_fresh (db : Registry) (k : String) (r : VideoRecord)
    (h : dbLookup db k = none) : dbLookup (db ++ [(k, r)]) k = some r := by
  induction db with
  | nil => simp [dbLookup]
  | cons p t ih =>
      obtain ⟨a, r0⟩ := p
      by_cases hk : k = a
      · subst hk; simp [dbLookup] at h
      · simp [dbLookup, hk] at h ⊢; exact ih h

theorem dbKeys_append (db l : Registry) :
    dbKeys (db ++ l) = dbKeys db ++ dbKeys l := by
  simp [dbKeys]

theorem dbKeys_updateStatus (db : Registry) (u st now : String) :
    dbKeys (dbUpdateStatus db u st now) = dbKeys db := by
  induction db with
  | nil => rfl
  | cons p t ih =>
      obtain ⟨a, r⟩ := p
      by_cases hu : u = a
      · simp [dbUpdateStatus, dbKeys, hu]
      · have ih1 := ih
        simp only [dbKeys] at ih1
        simp [dbUpdateStatus, dbKeys, hu, ih1]

theorem immutablePart_setStatus (r : VideoRecord) (st now : String) :
    immutablePart (setStatus r st now) = immutablePart r := rfl

theorem dbLookup_updateStatus (db : Registry) (u st now k : String) :
    dbLookup (dbUpdateStatus db u st now) k =
      (dbLookup db k).map (fun r => if k = u then setStatus r st now else r) := by
  induction db with
  | nil => simp [dbLookup, dbUpdateStatus]
  | cons p t ih =>
      obtain ⟨a, r⟩ := p
      by_cases hu : u = a
      · subst hu
        by_cases hk : k = u
        · subst hk; simp [dbUpdateStatus, dbLookup]
        · simp [dbUpdateStatus, dbLookup, hk]
      · by_cases hk : k = a
        · subst hk
          have hku : ¬ k = u := fun h => hu h.symm
          simp [dbUpdateStatus, dbLookup, hu, hku]
        · simp [dbUpdateStatus, dbLookup, hu, hk, ih]

/-! ### Case-analysis lemmas for the handlers -/

theorem afterResolve_fst_cases (db : Registry) (ridOpt : Option String)
    (vid : String) (pr : ProviderResult StatusBody) (now : String) :
    (afterResolve db ridOpt vid pr now).1 = db ∨
      ∃ rid st, (afterResolve db ridOpt vid pr now).1 = dbUpdateStatus db rid st now := by
  cases pr with
  | ok body =>
      cases hbd : body.data with
      | none => left; simp [afterResolve, translateProvider, hbd]
      | some d =>
          cases hst : d.status with
          | none => left; simp [afterResolve, translateProvider, hbd, hst]
          | some st =>
              cases ridOpt with
              | none => left; simp [afterResolve, translateProvider, hbd, hst]
              | some rid =>
                  by_cases hc : rid ≠ "" ∧ (dbLookup db rid).isSome
                  · right
                    exact ⟨rid, st, by
                      simp [afterResolve, translateProvider, hbd, hst, hc]⟩
                  · left; simp [afterResolve, translateProvider, hbd, hst, hc]
  | httpError c t => left; rfl
  | timeout => left; rfl
  | connError => left; rfl
  | reqError m => left; rfl

theorem afterResolve_not_success (db : Registry) (ridOpt : Option String)
    (vid : String) (pr : ProviderResult StatusBody) (now : String)
    (hs : statusSuccessShape pr = false) :
    (afterResolve db ridOpt vid pr now).1 = db ∧
    (afterResolve db ridOpt vid pr now).2.1 = 1 ∧
    ∃ e, (afterResolve db ridOpt vid pr now).2.2 = Except.error e := by
  cases pr with
  | ok body =>
      cases hbd : body.data with
      | none =>
          refine ⟨?_, ?_, ?_⟩ <;> simp [afterResolve, translateProvider, hbd]
      | some d =>
          cases hst : d.status with
          | none =>
              refine ⟨?_, ?_, ?_⟩ <;>
                simp [afterResolve, translateProvider, hbd, hst]
          | some st =>
              exfalso
              simp [statusSuccessShape, hbd, hst] at hs
  | httpError c t => exact ⟨rfl, rfl, ⟨_, rfl⟩⟩
  | timeout => exact ⟨rfl, rfl, ⟨_, rfl⟩⟩
  | connError => exact ⟨rfl, rfl, ⟨_, rfl⟩⟩
  | reqError m => exact ⟨rfl, rfl, ⟨_, rfl⟩⟩

theorem retrieve_fst_cases (db : Registry) (rq : VideoRetrievalRequest)
    (pr : ProviderResult StatusBody) (now : String) :
    (retrieve_video db rq pr now).1 = db ∨
      ∃ rid st, (retrieve_video db rq pr now).1 = dbUpdateStatus db rid st now := by
  have hfb : (retrieveFallback db rq pr now).1 = db ∨
      ∃ rid st, (retrieveFallback db rq pr now).1 = dbUpdateStatus db rid st now := by
    cases hv : rq.video_id with
    | none => left; simp [retrieveFallback, hv]
    | some vid =>
        by_cases hve : vid = ""
        · left; simp [retrieveFallback, hv, hve]
        · have := afterResolve_fst_cases db (resolveRidByVid db vid rq.request_id) vid pr now
          simpa [retrieveFallback, hv, hve] using this
  cases hr : rq.request_id with
  | none => simpa [retrieve_video, hr] using hfb
  | some rid =>
      by_cases hre : rid = ""
      · simpa [retrieve_video, hr, hre] using hfb
      · cases hl : dbLookup db rid with
        | none => left; simp [retrieve_video, hr, hre, hl]
        | some record =>
            have := afterResolve_fst_cases db (some rid) record.video_id pr now
            simpa [retrieve_video, hr, hre, hl] using this

theorem handleGenerate_fst_cases (db : Registry) (rid : String)
    (req : VideoGenerationRequest) (pr : ProviderResult GenBody)
    (now : String) :
    (handleGenerate db rid req pr now).1 = db ∨
      ∃ r0, (handleGenerate db rid req pr now).1 = dbInsert db rid r0 := by
  by_cases hv : validGenLen req.script_text
  · cases pr with
    | ok body =>
        cases hbd : body.data with
        | none => left; simp [handleGenerate, hv, generate_video, translateProvider, hbd]
        | some d =>
            cases hvi : d.video_id with
            | none =>
                left
                simp [handleGenerate, hv, generate_video, translateProvider, hbd, hvi]
            | some vid =>
                right
                exact ⟨genRecord req vid now, by
                  simp [handleGenerate, hv, generate_video, translateProvider, hbd, hvi]⟩
    | httpError c t => left; simp [handleGenerate, hv, generate_video, translateProvider]
    | timeout => left; simp [handleGenerate, hv, generate_video, translateProvider]
    | connError => left; simp [handleGenerate, hv, generate_video, translateProvider]
    | reqError m => left; simp [handleGenerate, hv, generate_video, translateProvider]
  · left; simp [handleGenerate, hv]

/-! ### Step-preservation lemmas -/

theorem applyOp_preserves (db : Registry) (op : GatewayOp) (k : String)
    (r : VideoRecord) (hf : freshGen db op = true)
    (hk : dbLookup db k = some r) :
    ∃ r', dbLookup (applyOp db op) k = some r' ∧
      immutablePart r' = immutablePart r := by
  cases op with
  | gen rid req pr now =>
      simp only [freshGen, Option.isNone_iff_eq_none] at hf
      rcases handleGenerate_fst_cases db rid req pr now with h | ⟨r0, h⟩
      · exact ⟨r, by simp [applyOp, h, hk], rfl⟩
      · refine ⟨r, ?_, rfl⟩
        simp only [applyOp, h, dbInsert_of_fresh db rid r0 hf]
        exact dbLookup_append_some db _ k r hk
  | ret rq pr now =>
      rcases retrieve_fst_cases db rq pr now with h | ⟨rid, st, h⟩
      · exact ⟨r, by simp [applyOp, h, hk], rfl⟩
      · refine ⟨if k = rid then setStatus r st now else r, ?_, ?_⟩
        · simp [applyOp, h, dbLookup_updateStatus, hk]
        · by_cases hkr : k = rid <;> simp [hkr, immutablePart_setStatus]

theorem applyOp_keys (db : Registry) (op : GatewayOp)
    (hf : freshGen db op = true) :
    dbKeys (applyOp db op) = dbKeys db ∨
      ∃ rid, rid ∉ dbKeys db ∧ dbKeys (applyOp db op) = dbKeys db ++ [rid] := by
  cases op with
  | gen rid req pr now =>
      simp only [freshGen, Option.isNone_iff_eq_none] at hf
      rcases handleGenerate_fst_cases db rid req pr now with h | ⟨r0, h⟩
      · left; simp [applyOp, h]
      · right
        refine ⟨rid, (dbLookup_eq_none_iff db rid).1 hf, ?_⟩
        simp [applyOp, h, dbInsert_of_fresh db rid r0 hf, dbKeys_append, dbKeys]
  | ret rq pr now =>
      rcases retrieve_fst_cases db rq pr now with h | ⟨rid, st, h⟩
      · left; simp [applyOp, h]
      · left; simp [applyOp, h, dbKeys_updateStatus]

theorem applyOp_nodup (db : Registry) (op : GatewayOp)
    (hf : freshGen db op = true) (hnd : (dbKeys db).Nodup) :
    (dbKeys (applyOp db op)).Nodup := by
  rcases applyOp_keys db op hf with h | ⟨rid, hmem, h⟩
  · rwa [h]
  · rw [h]
    simp [List.nodup_append, hnd, hmem]

theorem runOps_preserves (ops : List GatewayOp) (db : Registry) (k : String)
    (r : VideoRecord) (hfresh : freshRun db ops = true)
    (hk : dbLookup db k = some r) :
    ∃ r', dbLookup (runOps db ops) k = some r' ∧
      immutablePart r' = immutablePart r := by
  induction ops generalizing db r with
  | nil => exact ⟨r, hk, rfl⟩
  | cons op ops ih =>
      simp only [freshRun, Bool.and_eq_true] at hfresh
      obtain ⟨hf1, hf2⟩ := hfresh
      obtain ⟨r1, hr1, hi1⟩ := applyOp_preserves db op k r hf1 hk
      obtain ⟨r2, hr2, hi2⟩ := ih (applyOp db op) r1 hf2 hr1
      exact ⟨r2, by simpa [runOps] using hr2, hi2.trans hi1⟩

theorem runOps_nodup (ops : List GatewayOp) (db : Registry)
    (hfresh : freshRun db ops = true) (hnd : (dbKeys db).Nodup) :
    (dbKeys (runOps db ops)).Nodup := by
  induction ops generalizing db with
  | nil => simpa [runOps]
  | cons op ops ih =>
      simp only [freshRun, Bool.and_eq_true] at hfresh
      obtain ⟨hf1, hf2⟩ := hfresh
      simpa [runOps] using ih (applyOp db op) hf2 (applyOp_nodup db op hf1 hnd)

theorem handleGenerate_preserves_existing (db : Registry) (rid : String)
    (req : VideoGenerationRequest) (pr : ProviderResult GenBody)
    (now : String) (k : String) (r : VideoRecord)
    (hf : dbLookup db rid = none) (hk : dbLookup db k = some r) :
    dbLookup (handleGenerate db rid req pr now).1 k = some r := by
  rcases handleGenerate_fst_cases db rid req pr now with h | ⟨r0, h⟩
  · simp [h, hk]
  · rw [h, dbInsert_of_fresh db rid r0 hf]
    exact dbLookup_append_some db _ k r hk

/-! ### Concrete sample data for witnesses and counterexamples -/

/-- A minimal valid generation request with short explicit fields. -/
def shortGenRequest : VideoGenerationRequest :=
  { script_text := "Hi", template_id := some "tpl", use_captions := some false,
    avatar_id := some "a", voice_id := some "v", background_url := some "b",
    title := some "t", width := some 1, height := some 1 }

/-- A generation request whose script text is empty (rejected by
pydantic). -/
def emptyGenRequest : VideoGenerationRequest :=
  { shortGenRequest with script_text := "" }

/-- A stored registry record for video `v123`. -/
def recA : VideoRecord :=
  { video_id := "v123", script_text := "Hi", template_id := "tpl",
    use_captions := some false, avatar_id := some "a", voice_id := some "v",
    title := some "t", created_at := "t0", status := "processing",
    platform := "render" }

/-- The same record with a different video id. -/
def recB : VideoRecord := { recA with video_id := "v999" }

/-- A provider status body reporting `processing`. -/
def processingBody : StatusBody :=
  { data := some { status := some "processing" } }

/-- A provider status `data` object reporting failure with a string
error detail. -/
def failedData : StatusData :=
  { status := some "failed", error := some (some "boom") }

/-- A provider status `data` object reporting failure whose `error` key
is present but bound to JSON null. -/
def nullErrorFailedData : StatusData :=
  { status := some "failed", error := some none }

/-- A provider status `data` object that is not `completed` yet carries
all the completed-only fields. -/
def richProcessingData : StatusData :=
  { status := some "processing", video_url := some "u",
    caption_url := some "c", thumbnail_url := some "th",
    duration := some "12.5", created_at := some "2024" }

/-! ### Claim theorems -/

/-- C1: for every valid generation input, when the provider call succeeds
and its body carries `data.video_id`, the generate operation appends
exactly one new registry record, keyed by the freshly generated request
id, whose `video_id` is the provider's returned id and whose `status` is
`"processing"`, and returns a success response carrying that request id,
that video id, and the estimated-completion string. -/
theorem generate_success_inserts_processing_record (db : Registry)
    (rid vid now : String) (req : VideoGenerationRequest)
    (hval : validGenLen req.script_text = true)
    (hfresh : dbLookup db rid = none) :
    handleGenerate db rid req
        (ProviderResult.ok { data := some { video_id := some vid } }) now =
      (db ++ [(rid, genRecord req vid now)], 1,
       Except.ok
         { success := true
           message := "Video generation initiated successfully"
           request_id := rid
           video_id := some vid
           estimated_time := some "2-5 minutes" }) ∧
    (genRecord req vid now).status = "processing" ∧
    (genRecord req vid now).video_id = vid ∧
    dbLookup (db ++ [(rid, genRecord req vid now)]) rid =
      some (genRecord req vid now) := by
  refine ⟨?_, rfl, rfl, dbLookup_append_fresh db rid _ hfresh⟩
  simp [handleGenerate, hval, generate_video, translateProvider,
    dbInsert_of_fresh db rid _ hfresh]

/-- Witness for C1 at a concrete valid request against an empty
registry. -/
theorem generate_success_inserts_processing_record_witness :
    handleGenerate [] "rid-1" shortGenRequest
        (ProviderResult.ok { data := some { video_id := some "v123" } }) "t1" =
      ([] ++ [("rid-1", genRecord shortGenRequest "v123" "t1")], 1,
       Except.ok
         { success := true
           message := "Video generation initiated successfully"
           request_id := "rid-1"
           video_id := some "v123"
           estimated_time := some "2-5 minutes" }) ∧
    (genRecord shortGenRequest "v123" "t1").status = "processing" ∧
    (genRecord shortGenRequest "v123" "t1").video_id = "v123" ∧
    dbLookup ([] ++ [("rid-1", genRecord shortGenRequest "v123" "t1")])
        "rid-1" = some (genRecord shortGenRequest "v123" "t1") :=
  generate_success_inserts_processing_record [] "rid-1" "v123" "t1"
    shortGenRequest (by decide) rfl

/-- C2 counterexample: the dict-assignment insert raises no error on a
duplicate key; it silently replaces the stored record, so the existing
record does not survive, and the endpoint still answers success. -/
theorem insert_duplicate_silently_replaces_cex :
    dbInsert [("r1", recA)] "r1" recB = [("r1", recB)] ∧
    recB ≠ recA ∧
    dbLookup (dbInsert [("r1", recA)] "r1" recB) "r1" ≠ some recA ∧
    (handleGenerate [("r1", recA)] "r1" shortGenRequest
        (ProviderResult.ok { data := some { video_id := some "v999" } })
        "t0").2.2 =
      Except.ok
        { success := true
          message := "Video generation initiated successfully"
          request_id := "r1"
          video_id := some "v999"
          estimated_time := some "2-5 minutes" } := by
  exact ⟨rfl, by decide, by decide, rfl⟩

/-- C2 amended: inserting under an already-present request id silently
replaces the stored record with the new one and leaves the key sequence
unchanged. -/
theorem insert_duplicate_replaces (db : Registry) (k : String)
    (r : VideoRecord) (h : (dbLookup db k).isSome = true) :
    dbLookup (dbInsert db k r) k = some r ∧
    dbKeys (dbInsert db k r) = dbKeys db := by
  induction db with
  | nil => simp [dbLookup] at h
  | cons p t ih =>
      obtain ⟨a, r0⟩ := p
      by_cases hk : k = a
      · subst hk
        constructor <;> simp [dbInsert, dbLookup, dbKeys]
      · simp only [dbLookup, if_neg hk] at h
        obtain ⟨ih1, ih2⟩ := ih h
        simp only [dbKeys] at ih2
        constructor <;> simp [dbInsert, dbLookup, dbKeys, hk, ih1, ih2]

/-- Witness for the amended C2 at a concrete duplicate insert. -/
theorem insert_duplicate_replaces_witness :
    dbLookup (dbInsert [("r1", recA)] "r1" recB) "r1" = some recB ∧
    dbKeys (dbInsert [("r1", recA)] "r1" recB) = dbKeys [("r1", recA)] :=
  insert_duplicate_replaces [("r1", recA)] "r1" recB (by decide)

/-- The generation handler issues exactly one provider call once
validation has passed. -/
theorem generate_video_count (db : Registry) (rid : String)
    (req : VideoGenerationRequest) (pr : ProviderResult GenBody)
    (now : String) : (generate_video db rid req pr now).2.1 = 1 := by
  cases pr with
  | ok body =>
      cases hbd : body.data with
      | none => simp [generate_video, translateProvider, hbd]
      | some d =>
          cases hvi : d.video_id with
          | none => simp [generate_video, translateProvider, hbd, hvi]
          | some vid => simp [generate_video, translateProvider, hbd, hvi]
  | httpError c t => rfl
  | timeout => rfl
  | connError => rfl
  | reqError m => rfl

/-- C3: on every failure path of generation (non-success provider result
or a success body missing `data.video_id`) and every failure path of
retrieval (provider failure or a body missing `data.status`), the
registry is returned exactly as it was, an error is surfaced, and at
most one provider call was made (no retry). -/
theorem failure_paths_leave_registry_unchanged (db : Registry)
    (rid now : String) (req : VideoGenerationRequest)
    (gpr : ProviderResult GenBody) (rq : VideoRetrievalRequest)
    (spr : ProviderResult StatusBody)
    (hg : genSuccessShape gpr = false)
    (hs : statusSuccessShape spr = false) :
    ((generate_video db rid req gpr now).1 = db ∧
     (∃ e, (generate_video db rid req gpr now).2.2 = Except.error e) ∧
     (generate_video db rid req gpr now).2.1 ≤ 1) ∧
    ((retrieve_video db rq spr now).1 = db ∧
     (∃ e, (retrieve_video db rq spr now).2.2 = Except.error e) ∧
     (retrieve_video db rq spr now).2.1 ≤ 1) := by
  constructor
  · cases gpr with
    | ok body =>
        cases hbd : body.data with
        | none =>
            refine ⟨?_,
              ⟨⟨500, "Unexpected response from video generation service"⟩, ?_⟩,
              ?_⟩ <;>
              simp [generate_video, translateProvider, hbd]
        | some d =>
            cases hvi : d.video_id with
            | none =>
                refine ⟨?_,
                  ⟨⟨500, "Unexpected response from video generation service"⟩, ?_⟩,
                  ?_⟩ <;>
                  simp [generate_video, translateProvider, hbd, hvi]
            | some vid =>
                exfalso; simp [genSuccessShape, hbd, hvi] at hg
    | httpError c t => exact ⟨rfl, ⟨_, rfl⟩, le_refl 1⟩
    | timeout => exact ⟨rfl, ⟨_, rfl⟩, le_refl 1⟩
    | connError => exact ⟨rfl, ⟨_, rfl⟩, le_refl 1⟩
    | reqError m => exact ⟨rfl, ⟨_, rfl⟩, le_refl 1⟩
  · have hfb : (retrieveFallback db rq spr now).1 = db ∧
        (∃ e, (retrieveFallback db rq spr now).2.2 = Except.error e) ∧
        (retrieveFallback db rq spr now).2.1 ≤ 1 := by
      cases hv : rq.video_id with
      | none =>
          exact ⟨by simp [retrieveFallback, hv],
                 ⟨⟨400, "Either request_id or video_id must be provided"⟩,
                  by simp [retrieveFallback, hv]⟩,
                 by simp [retrieveFallback, hv]⟩
      | some vid =>
          by_cases hve : vid = ""
          · exact ⟨by simp [retrieveFallback, hv, hve],
                   ⟨⟨400, "Either request_id or video_id must be provided"⟩,
                    by simp [retrieveFallback, hv, hve]⟩,
                   by simp [retrieveFallback, hv, hve]⟩
          · obtain ⟨h1, h2, e, h3⟩ :=
              afterResolve_not_success db (resolveRidByVid db vid rq.request_id)
                vid spr now hs
            exact ⟨by simp [retrieveFallback, hv, hve, h1],
                   ⟨e, by simp [retrieveFallback, hv, hve, h3]⟩,
                   by simp [retrieveFallback, hv, hve, h2]⟩
    cases hr : rq.request_id with
    | none =>
        refine ⟨?_, ?_, ?_⟩ <;> simp only [retrieve_video, hr]
        · exact hfb.1
        · exact hfb.2.1
        · exact hfb.2.2
    | some rid2 =>
        by_cases hre : rid2 = ""
        · refine ⟨?_, ?_, ?_⟩ <;> simp only [retrieve_video, hr, hre, if_pos]
          · exact hfb.1
          · exact hfb.2.1
          · exact hfb.2.2
        · cases hl : dbLookup db rid2 with
          | none =>
              exact ⟨by simp [retrieve_video, hr, hre, hl],
                     ⟨⟨404, "Request ID not found"⟩,
                      by simp [retrieve_video, hr, hre, hl]⟩,
                     by simp [retrieve_video, hr, hre, hl]⟩
          | some record =>
              obtain ⟨h1, h2, e, h3⟩ :=
                afterResolve_not_success db (some rid2) record.video_id spr now hs
              exact ⟨by simp [retrieve_video, hr, hre, hl, h1],
                     ⟨e, by simp [retrieve_video, hr, hre, hl, h3]⟩,
                     by simp [retrieve_video, hr, hre, hl, h2]⟩

/-- Witness for C3: a provider timeout on each path against a one-record
registry. -/
theorem failure_paths_leave_registry_unchanged_witness :
    ((generate_video [("r1", recA)] "r2" shortGenRequest
        ProviderResult.timeout "t").1 = [("r1", recA)] ∧
     (∃ e, (generate_video [("r1", recA)] "r2" shortGenRequest
        ProviderResult.timeout "t").2.2 = Except.error e) ∧
     (generate_video [("r1", recA)] "r2" shortGenRequest
        ProviderResult.timeout "t").2.1 ≤ 1) ∧
    ((retrieve_video [("r1", recA)] { request_id := some "r1" }
        ProviderResult.timeout "t").1 = [("r1", recA)] ∧
     (∃ e, (retrieve_video [("r1", recA)] { request_id := some "r1" }
        ProviderResult.timeout "t").2.2 = Except.error e) ∧
     (retrieve_video [("r1", recA)] { request_id := some "r1" }
        ProviderResult.timeout "t").2.1 ≤ 1) :=
  failure_paths_leave_registry_unchanged [("r1", recA)] "r2" "t"
    shortGenRequest ProviderResult.timeout { request_id := some "r1" }
    ProviderResult.timeout rfl rfl

/-- C4: a `script_text` of length 0 or above 5000 is rejected by the
pydantic validation with a 422 (400-class) error before the handler
runs, so no provider call is made; every length from 1 to 5000 passes
validation, after which exactly one provider call is made. -/
theorem script_length_validation (db : Registry) (rid now : String)
    (req : VideoGenerationRequest) (pr : ProviderResult GenBody) :
    (req.script_text.length = 0 ∨ req.script_text.length > 5000 →
       handleGenerate db rid req pr now =
         (db, 0, Except.error (AppError.validation validationDetail)) ∧
       (errorResponseBody (AppError.validation validationDetail)).1 = 422 ∧
       400 ≤ (errorResponseBody (AppError.validation validationDetail)).1 ∧
       (errorResponseBody (AppError.validation validationDetail)).1 < 500) ∧
    (1 ≤ req.script_text.length → req.script_text.length ≤ 5000 →
       validGenLen req.script_text = true ∧
       (handleGenerate db rid req pr now).2.1 = 1) := by
  constructor
  · intro h
    have hv : ¬ validGenLen req.script_text = true := by
      simp only [validGenLen, Bool.and_eq_true, decide_eq_true_eq]
      omega
    refine ⟨by simp [handleGenerate, hv], rfl,
      by simp [errorResponseBody], by simp [errorResponseBody]⟩
  · intro h1 h2
    have hv : validGenLen req.script_text = true := by
      simp only [validGenLen, Bool.and_eq_true, decide_eq_true_eq]
      omega
    refine ⟨hv, ?_⟩
    have hc := generate_video_count db rid req pr now
    rcases hgen : generate_video db rid req pr now with ⟨db1, n, res⟩
    rw [hgen] at hc
    cases res with
    | ok resp => simp [handleGenerate, hv, hgen]; exact hc
    | error e => simp [handleGenerate, hv, hgen]; exact hc

/-- Witness for C4: the empty script is rejected without a provider
call, and a two-character script passes validation. -/
theorem script_length_validation_witness :
    (handleGenerate [] "r1" emptyGenRequest ProviderResult.timeout "t" =
       ([], 0, Except.error (AppError.validation validationDetail)) ∧
     (errorResponseBody (AppError.validation validationDetail)).1 = 422 ∧
     400 ≤ (errorResponseBody (AppError.validation validationDetail)).1 ∧
     (errorResponseBody (AppError.validation validationDetail)).1 < 500) ∧
    (validGenLen shortGenRequest.script_text = true ∧
     (handleGenerate [] "r1" shortGenRequest ProviderResult.timeout "t").2.1 = 1) :=
  ⟨(script_length_validation [] "r1" "t" emptyGenRequest
      ProviderResult.timeout).1 (Or.inl (by decide)),
   (script_length_validation [] "r1" "t" shortGenRequest
      ProviderResult.timeout).2 (by decide) (by decide)⟩

/-- C5 counterexample: an empty-string `request_id` is supplied and is
absent from the registry, yet the call fails with the 400
missing-argument error rather than the 404 `NotFound` the claim
requires (Python truthiness treats the empty string as not supplied). -/
theorem retrieval_empty_request_id_cex :
    retrieve_video [] { request_id := some "", video_id := none }
        (ProviderResult.ok processingBody) "t" =
      ([], 0, Except.error
        ⟨400, "Either request_id or video_id must be provided"⟩) ∧
    (400 : Nat) ≠ 404 :=
  ⟨rfl, by decide⟩

/-- C5 amended: with empty strings treated as not supplied — if neither
a non-empty `request_id` nor a non-empty `video_id` is given, the call
fails with the 400 `InvalidArgument` error; a non-empty `request_id`
takes precedence, failing with 404 `NotFound` (and no provider call)
when it is unknown and otherwise resolving the target video id from its
record; failing that, a non-empty `video_id` is used as-is, whether or
not any registry record matches it. -/
theorem retrieval_resolution_rules (db : Registry)
    (rq : VideoRetrievalRequest) (pr : ProviderResult StatusBody)
    (now : String) :
    ((rq.request_id = none ∨ rq.request_id = some "") →
     (rq.video_id = none ∨ rq.video_id = some "") →
       retrieve_video db rq pr now =
         (db, 0, Except.error
           ⟨400, "Either request_id or video_id must be provided"⟩)) ∧
    (∀ rid, rq.request_id = some rid → rid ≠ "" → dbLookup db rid = none →
       retrieve_video db rq pr now =
         (db, 0, Except.error ⟨404, "Request ID not found"⟩)) ∧
    (∀ rid record, rq.request_id = some rid → rid ≠ "" →
       dbLookup db rid = some record →
       retrieve_video db rq pr now =
         afterResolve db (some rid) record.video_id pr now) ∧
    (∀ vid, (rq.request_id = none ∨ rq.request_id = some "") →
       rq.video_id = some vid → vid ≠ "" →
       retrieve_video db rq pr now =
         afterResolve db (resolveRidByVid db vid rq.request_id) vid pr now) := by
  refine ⟨?_, ?_, ?_, ?_⟩
  · intro h1 h2
    rcases h1 with h1 | h1 <;> rcases h2 with h2 | h2 <;>
      simp [retrieve_video, retrieveFallback, h1, h2]
  · intro rid h1 h2 h3
    simp [retrieve_video, h1, h2, h3]
  · intro rid record h1 h2 h3
    simp [retrieve_video, h1, h2, h3]
  · intro vid h1 h2 h3
    rcases h1 with h1 | h1 <;>
      simp [retrieve_video, retrieveFallback, h1, h2, h3]

/-- Witness for the amended C5: an unknown non-empty request id fails
with 404 and zero provider calls. -/
theorem retrieval_resolution_rules_witness :
    retrieve_video [] { request_id := some "zzz", video_id := none }
        (ProviderResult.ok processingBody) "t" =
      ([], 0, Except.error ⟨404, "Request ID not found"⟩) :=
  (retrieval_resolution_rules [] { request_id := some "zzz", video_id := none }
      (ProviderResult.ok processingBody) "t").2.1 "zzz" rfl (by decide) rfl

/-- C6 counterexample: a failed status whose `error` key is present but
bound to JSON null.  The claim requires the message to incorporate the
error detail if present, else the generic unknown-error placeholder;
the program's two-argument `data.get("error", "Unknown error")`
(src/main.py line 349) returns the stored `None`, so the message is
`Video generation failed: None` — no string detail and not the
placeholder. -/
theorem failed_null_error_message_cex :
    nullErrorFailedData.error = some none ∧
    (afterResolve [] (some "r1") "v1"
        (ProviderResult.ok { data := some nullErrorFailedData }) "t").2.2 =
      Except.ok
        (buildRetResponse (some "r1") "v1" "failed" nullErrorFailedData) ∧
    (buildRetResponse (some "r1") "v1" "failed" nullErrorFailedData).message =
      "Video generation failed: None" ∧
    (buildRetResponse (some "r1") "v1" "failed" nullErrorFailedData).message ≠
      "Video generation failed: Unknown error" :=
  ⟨rfl, rfl, rfl, by decide⟩

/-- C6 amended: every successful retrieval whose provider body carries
`data.status` answers with that status; when the status is
`"completed"` the five optional fields are copied verbatim from the
provider body (absent-or-null passes through as `none`); when the
status is `"failed"` the message renders
`data.get("error", "Unknown error")`: it incorporates the provider's
error detail when a string detail is present, falls back to the generic
`Unknown error` placeholder only when the `error` key is absent, and
renders a present-but-null detail as the literal `None`. -/
theorem retrieval_success_response_shape (db : Registry)
    (ridOpt : Option String) (vid now st : String) (d : StatusData)
    (hst : d.status = some st) :
    (afterResolve db ridOpt vid
        (ProviderResult.ok { data := some d }) now).2.2 =
      Except.ok (buildRetResponse ridOpt vid st d) ∧
    (buildRetResponse ridOpt vid st d).status = some st ∧
    (st = "completed" →
       (buildRetResponse ridOpt vid st d).video_url = d.video_url ∧
       (buildRetResponse ridOpt vid st d).caption_url = d.caption_url ∧
       (buildRetResponse ridOpt vid st d).thumbnail_url = d.thumbnail_url ∧
       (buildRetResponse ridOpt vid st d).duration = d.duration ∧
       (buildRetResponse ridOpt vid st d).created_at = d.created_at) ∧
    (st = "failed" →
       (buildRetResponse ridOpt vid st d).message =
         "Video generation failed: " ++ errorDetailText d.error ∧
       (∀ e, d.error = some (some e) →
          (buildRetResponse ridOpt vid st d).message =
            "Video generation failed: " ++ e) ∧
       (d.error = none →
          (buildRetResponse ridOpt vid st d).message =
            "Video generation failed: Unknown error") ∧
       (d.error = some none →
          (buildRetResponse ridOpt vid st d).message =
            "Video generation failed: None")) := by
  refine ⟨?_, ?_, ?_, ?_⟩
  · cases ridOpt with
    | none => simp [afterResolve, translateProvider, hst]
    | some rid =>
        by_cases hc : rid ≠ "" ∧ (dbLookup db rid).isSome <;>
          simp [afterResolve, translateProvider, hst, hc]
  · by_cases h1 : st = "completed"
    · simp [buildRetResponse, h1]
    · by_cases h2 : st = "failed" <;> simp [buildRetResponse, h1, h2]
  · intro h1
    simp [buildRetResponse, h1]
  · intro h1
    have hne : st ≠ "completed" := by subst h1; decide
    refine ⟨by simp [buildRetResponse, hne, h1], ?_, ?_, ?_⟩
    · intro e he; simp [buildRetResponse, hne, h1, he, errorDetailText]
    · intro he; simp [buildRetResponse, hne, h1, he, errorDetailText]
    · intro he; simp [buildRetResponse, hne, h1, he, errorDetailText]

/-- Witness for the amended C6 at a failed status whose error detail is
the string `boom`. -/
theorem retrieval_success_response_shape_witness :
    (afterResolve [] (some "r1") "v1"
        (ProviderResult.ok { data := some failedData }) "t").2.2 =
      Except.ok (buildRetResponse (some "r1") "v1" "failed" failedData) ∧
    (buildRetResponse (some "r1") "v1" "failed" failedData).message =
      "Video generation failed: boom" :=
  ⟨(retrieval_success_response_shape [] (some "r1") "v1" "t" "failed"
      failedData rfl).1,
   ((retrieval_success_response_shape [] (some "r1") "v1" "t" "failed"
      failedData rfl).2.2.2 rfl).2.1 "boom" rfl⟩

/-- C9 counterexample: both identifiers supplied, the request id being
the empty string and absent from the registry; the claim requires a 404
with no provider call, but the code falls through to the video id, makes
the provider call (counter 1) and answers success. -/
theorem both_ids_empty_request_id_fallback_cex :
    (retrieve_video [("r1", recA)]
        { request_id := some "", video_id := some "v123" }
        (ProviderResult.ok processingBody) "t2").2.1 = 1 ∧
    (retrieve_video [("r1", recA)]
        { request_id := some "", video_id := some "v123" }
        (ProviderResult.ok processingBody) "t2").2.2 =
      Except.ok (buildRetResponse (some "r1") "v123" "processing"
        { status := some "processing" }) :=
  ⟨rfl, rfl⟩

/-- C9 amended: when both identifiers are supplied and the request id is
non-empty but unknown, the call fails with 404 before any provider call
and the video id is never consulted; an empty-string request id is
treated as not supplied and the video id is used instead. -/
theorem unknown_nonempty_request_id_not_found (db : Registry)
    (rid vid now : String) (rq : VideoRetrievalRequest)
    (pr : ProviderResult StatusBody)
    (h1 : rq.request_id = some rid) (h2 : rid ≠ "")
    (h3 : rq.video_id = some vid) (h4 : dbLookup db rid = none) :
    retrieve_video db rq pr now =
      (db, 0, Except.error ⟨404, "Request ID not found"⟩) := by
  simp [retrieve_video, h1, h2, h4]

/-- Witness for the amended C9 at a concrete unknown request id. -/
theorem unknown_nonempty_request_id_not_found_witness :
    retrieve_video [("r1", recA)]
        { request_id := some "r2", video_id := some "v123" }
        (ProviderResult.ok processingBody) "t" =
      ([("r1", recA)], 0, Except.error ⟨404, "Request ID not found"⟩) :=
  unknown_nonempty_request_id_not_found [("r1", recA)] "r2" "v123" "t"
    { request_id := some "r2", video_id := some "v123" }
    (ProviderResult.ok processingBody) rfl (by decide) rfl (by decide)

/-- C10: every successful retrieval whose provider status is anything
other than `"completed"` answers with all five completed-only fields
null, even when the provider body carries values for them. -/
theorem non_completed_retrieval_fields_null (db : Registry)
    (ridOpt : Option String) (vid now st : String) (d : StatusData)
    (hst : d.status = some st) (hne : st ≠ "completed") :
    (afterResolve db ridOpt vid
        (ProviderResult.ok { data := some d }) now).2.2 =
      Except.ok (buildRetResponse ridOpt vid st d) ∧
    (buildRetResponse ridOpt vid st d).video_url = none ∧
    (buildRetResponse ridOpt vid st d).caption_url = none ∧
    (buildRetResponse ridOpt vid st d).thumbnail_url = none ∧
    (buildRetResponse ridOpt vid st d).duration = none ∧
    (buildRetResponse ridOpt vid st d).created_at = none := by
  constructor
  · cases ridOpt with
    | none => simp [afterResolve, translateProvider, hst]
    | some rid =>
        by_cases hc : rid ≠ "" ∧ (dbLookup db rid).isSome <;>
          simp [afterResolve, translateProvider, hst, hc]
  · by_cases h2 : st = "failed" <;>
      simp [buildRetResponse, hne, h2]

/-- Witness for C10: a `processing` status with all completed-only
fields populated in the provider body still yields null fields. -/
theorem non_completed_retrieval_fields_null_witness :
    (afterResolve [] (some "r1") "v1"
        (ProviderResult.ok { data := some richProcessingData }) "t").2.2 =
      Except.ok (buildRetResponse (some "r1") "v1" "processing"
        richProcessingData) ∧
    (buildRetResponse (some "r1") "v1" "processing"
        richProcessingData).video_url = none ∧
    (buildRetResponse (some "r1") "v1" "processing"
        richProcessingData).caption_url = none ∧
    (buildRetResponse (some "r1") "v1" "processing"
        richProcessingData).thumbnail_url = none ∧
    (buildRetResponse (some "r1") "v1" "processing"
        richProcessingData).duration = none ∧
    (buildRetResponse (some "r1") "v1" "processing"
        richProcessingData).created_at = none :=
  non_completed_retrieval_fields_null [] (some "r1") "v1" "t" "processing"
    richProcessingData rfl (by decide)

/-- A concrete one-record registry for the C7 witness. -/
def sampleDb : Registry := [("r1", recA)]

/-- A concrete operation sequence for the C7 witness: a retrieval that
updates the record's status, then a generation under a fresh id. -/
def sampleOps : List GatewayOp :=
  [GatewayOp.ret { request_id := some "r1" }
     (ProviderResult.ok processingBody) "t2",
   GatewayOp.gen "r2" shortGenRequest
     (ProviderResult.ok { data := some { video_id := some "v2" } }) "t3"]

/-- C7: across any sequence of generation calls (with fresh ids) and
retrieval calls after a record's insertion, the record keeps its
`video_id`, `script_text`, `template_id`, `use_captions`, `avatar_id`,
`voice_id`, `title` and `created_at` fields exactly (only `status` and
`last_checked` may change, and only the retrieval path changes them: a
single generation call leaves an existing record entirely untouched),
and the registry's keys stay duplicate-free. -/
theorem registry_immutable_fields_preserved (db : Registry)
    (ops : List GatewayOp) (k : String) (r : VideoRecord)
    (grid : String) (greq : VideoGenerationRequest)
    (gpr : ProviderResult GenBody) (gnow : String)
    (hfresh : freshRun db ops = true) (hk : dbLookup db k = some r)
    (hgfresh : dbLookup db grid = none) :
    (∃ r', dbLookup (runOps db ops) k = some r' ∧
       immutablePart r' = immutablePart r) ∧
    ((dbKeys db).Nodup → (dbKeys (runOps db ops)).Nodup) ∧
    dbLookup (handleGenerate db grid greq gpr gnow).1 k = some r :=
  ⟨runOps_preserves ops db k r hfresh hk,
   fun hnd => runOps_nodup ops db hfresh hnd,
   handleGenerate_preserves_existing db grid greq gpr gnow k r hgfresh hk⟩

/-- Witness for C7 on a concrete registry and operation sequence. -/
theorem registry_immutable_fields_preserved_witness :
    (∃ r', dbLookup (runOps sampleDb sampleOps) "r1" = some r' ∧
       immutablePart r' = immutablePart recA) ∧
    ((dbKeys sampleDb).Nodup → (dbKeys (runOps sampleDb sampleOps)).Nodup) ∧
    dbLookup (handleGenerate sampleDb "r9" shortGenRequest
        (ProviderResult.ok { data := some { video_id := some "v9" } })
        "t9").1 "r1" = some recA :=
  registry_immutable_fields_preserved sampleDb sampleOps "r1" recA "r9"
    shortGenRequest
    (ProviderResult.ok { data := some { video_id := some "v9" } }) "t9"
    (by decide) (by decide) (by decide)

/-- C8 counterexample: a caller-input validation error (empty
`script_text`) is answered by the framework's default 422 handler,
whose body is a single `detail` field — not the uniform
`success`/`message`/`status_code` shape the claim requires. -/
theorem validation_error_body_not_uniform_cex :
    (handleGenerate [] "r1" emptyGenRequest ProviderResult.timeout
        "t").2.2 = Except.error (AppError.validation validationDetail) ∧
    (errorResponseBody (AppError.validation validationDetail)).2.map
        Prod.fst = ["detail"] ∧
    ("success", JVal.jb false) ∉
      (errorResponseBody (AppError.validation validationDetail)).2 :=
  ⟨rfl, rfl, by decide⟩

/-- C8 amended: every error surfaced by raising `HTTPException` is
rendered by the application's handler as the uniform body
`success:false`, `message`, `status_code` (plus a `platform` tag);
request-body validation errors are instead answered by the framework's
default 422 handler with a `detail`-only body. -/
theorem error_body_shapes :
    (∀ code detail, errorResponseBody (AppError.http ⟨code, detail⟩) =
       (code,
        [("success", JVal.jb false), ("message", JVal.js detail),
         ("status_code", JVal.jn code), ("platform", JVal.js "Render")])) ∧
    (∀ d, errorResponseBody (AppError.validation d) =
       (422, [("detail", JVal.js d)])) :=
  ⟨fun _ _ => rfl, fun _ => rfl⟩
